import Mathlib

/-!
Verification of the core of `angelito_v3.py`: a Secret-Santa coordination
tool.  The participant store (an SQLite table keyed by `phone`, with
at most one row per phone thanks to the PRIMARY KEY constraint) is embedded
as a `List Participant`; an SQL `SELECT ... WHERE phone = ?` becomes
`List.find?`, and an `UPDATE ... WHERE phone = ?` becomes a `List.map`
that rewrites every row matching the `WHERE` clause.

Randomness and wall-clock time are made explicit parameters:
* `random.shuffle` inside `generate_derangement` becomes a list of
  candidate shuffles (the sequence of permutations the RNG would produce,
  one per loop iteration; its length plays the role of `max_tries`);
* `random.randint(0, 999999)` inside `gen_pin_6` becomes a `Nat` argument;
* `now_iso()` becomes a `String` argument.
-/

/-- One row of the `participants` table (`CREATE TABLE` in `init_db`). -/
structure Participant where
  phone : String
  name : String
  pin : Option String
  assigned_to_phone : String
  assigned_to_name : String
  registered_at : Option String
  revealed_at : Option String
deriving Repr, DecidableEq

/-- The two exceptions `generate_derangement` can raise:
`ValueError` (too few participants) and `RuntimeError` (retries exhausted). -/
inductive GenError where
  | insufficientParticipants
  | generationFailed
deriving Repr, DecidableEq

/-- The status strings produced by `validate_phone_pin`; the `None` status of
the phone-not-found case is modelled as `Option.none` around this type. -/
inductive VStatus where
  | NOT_REGISTERED
  | BAD_PIN
  | OK
deriving Repr, DecidableEq

/-- The `PARTICIPANTS` roster constant: (name, phone) pairs. -/
def PARTICIPANTS : List (String × String) :=
  [("Lola", "8494248466"),
   ("Fabio", "8296899377"),
   ("Papo", "8098668564"),
   ("Mari", "8492663390"),
   ("Beiby", "8296612718"),
   ("Ana", "8097168082"),
   ("Andy", "8097218466"),
   ("Cris", "8293514306"),
   ("Brayan", "9084103558"),
   ("Ian", "5513439440"),
   ("Lesly", "8493783025"),
   ("Francis", "8097297790"),
   ("Camila", "8099039847"),
   ("Adrian", "8295778167"),
   ("Gabriel", "8298451552"),
   ("Enmanuel", "8295274679"),
   ("Samuel", "8299744776"),
   ("Yari", "8297683028")]

/-- Python `clean_phone`: `re.sub(r"\D+", "", x)` keeps exactly the digit characters. -/
def clean_phone (x : String) : String :=
  String.mk (x.toList.filter Char.isDigit)

/-- Python `clean_pin`: same digits-only normalisation as `clean_phone`. -/
def clean_pin (x : String) : String :=
  String.mk (x.toList.filter Char.isDigit)

/-- Decimal digits of `n`, least significant first (the digit characters of
Python's `"%d" % n`, reversed). -/
def natDigitsRev (n : Nat) : List Char :=
  if h : n < 10 then [Char.ofNat (48 + n)]
  else Char.ofNat (48 + n % 10) :: natDigitsRev (n / 10)
termination_by n
decreasing_by
  simp_wf
  exact Nat.div_lt_self (by omega) (by omega)

/-- Python `gen_pin_6`, a `randint(0, 999999)` draw formatted with `06d` — the decimal representation of `n`
left-padded with `'0'` to at least six characters.  The caller supplies
`n = random.randint(0, 999999)`. -/
def gen_pin_6 (n : Nat) : String :=
  let ds := (natDigitsRev n).reverse
  String.mk (List.replicate (6 - ds.length) '0' ++ ds)

/-- Python `valid_phones_set`: the set of roster phones (membership is what the UI
tests; modelled as the list of phones). -/
def valid_phones_set : List String :=
  PARTICIPANTS.map (fun p => p.2)

/-- Python `phone_to_name_map`: the dict `{phone: name}` built from the roster. -/
def phone_to_name_map : List (String × String) :=
  PARTICIPANTS.map (fun p => (p.2, p.1))

/-- Lookup in `phone_to_name_map` (`p2n[phone]`; roster phones are distinct,
so the first match is the dict entry). -/
def p2n (phone : String) : String :=
  ((phone_to_name_map.find? (fun q => q.1 == phone)).map (fun q => q.2)).getD ("")

/-- The retry loop of `generate_derangement`: try each candidate shuffle in
turn, accepting the first one with no positional fixed point; if the
candidate list (of length `max_tries`) is exhausted, `RuntimeError`. -/
def tryShuffles (items : List String) : List (List String) → Except GenError (List (String × String))
  | [] => .error .generationFailed
  | s :: rest =>
    if (items.zip s).all (fun p => p.1 != p.2) then .ok (items.zip s)
    else tryShuffles items rest

/-- Python `generate_derangement(items)`: drop falsy (empty) items, require at
least 2, then rejection-sample shuffles until none is a positional fixed
point; the result is `dict(zip(items, shuffled))`, kept as the
association list of its insertions. -/
def generate_derangement (items : List String) (shuffles : List (List String)) :
    Except GenError (List (String × String)) :=
  let kept := items.filter (fun i => i != "")
  if kept.length < 2 then .error .insufficientParticipants
  else tryShuffles kept shuffles

/-- Python `init_db` restricted to the row contents of the `participants` table
(the schema bookkeeping — `PRAGMA`, `DROP`, `CREATE` — is below the row
model): if the table is empty, seed it from the roster and a fresh
derangement with `pin`, `registered_at`, `revealed_at` all NULL;
otherwise leave it untouched. -/
def init_db (db : List Participant) (shuffles : List (List String)) :
    Except GenError (List Participant) :=
  if db.length = 0 then
    match generate_derangement (PARTICIPANTS.map (fun p => p.2)) shuffles with
    | .error e => .error e
    | .ok assignment =>
      .ok (assignment.map (fun gr =>
        { phone := gr.1
          name := p2n gr.1
          pin := none
          assigned_to_phone := gr.2
          assigned_to_name := p2n gr.2
          registered_at := none
          revealed_at := none }))
  else .ok db

/-- Python `fetch_by_phone`: `SELECT * FROM participants WHERE phone = ?`. -/
def fetch_by_phone (db : List Participant) (phone : String) : Option Participant :=
  db.find? (fun r => r.phone == phone)

/-- Python `register_phone(phone)`: look the row up; absent phones give
`(None, None, False)`.  Otherwise `was_new` is whether `registered_at`
is NULL, the returned pin is the stored one or (if NULL) the freshly
generated `fresh`, and the row is updated with
`registered_at = COALESCE(registered_at, now)`,
`pin = COALESCE(pin, returned_pin)`. -/
def register_phone (db : List Participant) (phone now fresh : String) :
    (Option String × Option String × Bool) × List Participant :=
  match db.find? (fun r => r.phone == phone) with
  | none => ((none, none, false), db)
  | some row =>
    let was_new := row.registered_at.isNone
    let pinVal := row.pin.getD fresh
    ((some row.name, some pinVal, was_new),
      db.map (fun r =>
        if r.phone == phone then
          { r with registered_at := some (r.registered_at.getD now),
                   pin := some (r.pin.getD pinVal) }
        else r))

/-- Python `validate_phone_pin(phone, pin)`: `(False, None, None)` when the phone
is not in the table; `NOT_REGISTERED` when `registered_at` is NULL;
`BAD_PIN` when the stored pin is NULL or differs from the supplied pin;
otherwise `OK`. -/
def validate_phone_pin (db : List Participant) (phone pin : String) :
    Bool × Option String × Option VStatus :=
  match db.find? (fun r => r.phone == phone) with
  | none => (false, none, none)
  | some row =>
    if row.registered_at.isNone then (false, some row.name, some VStatus.NOT_REGISTERED)
    else
      match row.pin with
      | none => (false, some row.name, some VStatus.BAD_PIN)
      | some db_pin =>
        if pin ≠ db_pin then (false, some row.name, some VStatus.BAD_PIN)
        else (true, some row.name, some VStatus.OK)

/-- Python `reveal_assignment(phone)`: absent phones give `(None, None)`; if
`revealed_at` is already set it is returned unchanged with no write;
otherwise `UPDATE ... SET revealed_at = now WHERE phone = ? AND
revealed_at IS NULL` runs and the fresh timestamp is returned. -/
def reveal_assignment (db : List Participant) (phone now : String) :
    (Option String × Option String) × List Participant :=
  match db.find? (fun r => r.phone == phone) with
  | none => ((none, none), db)
  | some row =>
    match row.revealed_at with
    | some ts => ((some row.assigned_to_name, some ts), db)
    | none =>
      ((some row.assigned_to_name, some now),
        db.map (fun r =>
          if r.phone == phone && r.revealed_at.isNone then
            { r with revealed_at := some now }
          else r))

/-- Python `reset_pin(phone)`: generate a new pin, run
`UPDATE participants SET pin = ? WHERE phone = ?` unconditionally, and
return the new pin (whether or not any row matched). -/
def reset_pin (db : List Participant) (phone : String) (n : Nat) :
    String × List Participant :=
  let new_pin := gen_pin_6 n
  (new_pin,
    db.map (fun r => if r.phone == phone then { r with pin := some new_pin } else r))

/-- Outcome of the reveal-button UI handler: which message branch ran, and
for the success branch the data it displays. -/
inductive RevealOutcome where
  | notInList
  | notRegisteredMsg
  | badPinMsg
  | couldNotValidate
  | revealed (name : Option String) (assigned : Option String) (revealedAt : Option String)
deriving Repr, DecidableEq

/-- Whether the handler reached the success branch that discloses the
assigned recipient. -/
def RevealOutcome.isRevealed : RevealOutcome → Bool
  | .revealed _ _ _ => true
  | _ => false

/-- The `if reveal_btn:` handler: clean the two inputs, refuse phones
outside the roster, run `validate_phone_pin`, map the failure statuses to
their error messages, and only in the remaining (validated) case call
`reveal_assignment` and display the recipient. -/
def reveal_button_handler (db : List Participant) (phone_input pin_input now : String) :
    RevealOutcome × List Participant :=
  let phone2 := clean_phone phone_input
  let pin2 := clean_pin pin_input
  if phone2 ∉ valid_phones_set then (.notInList, db)
  else
    let v := validate_phone_pin db phone2 pin2
    if v.2.2 = some VStatus.NOT_REGISTERED then (.notRegisteredMsg, db)
    else if v.2.2 = some VStatus.BAD_PIN then (.badPinMsg, db)
    else if v.1 = false then (.couldNotValidate, db)
    else
      let res := reveal_assignment db phone2 now
      (.revealed v.2.1 res.1.1 res.1.2, res.2)

/-- Claim C8: an input list with fewer than 2 identifiers always fails with
`InsufficientParticipants`, whatever shuffles the RNG would have produced. -/
theorem generate_derangement_insufficient (items : List String)
    (shuffles : List (List String)) (h : items.length < 2) :
    generate_derangement items shuffles = .error .insufficientParticipants := by
  unfold generate_derangement
  have hle : (items.filter (fun i => i != "")).length ≤ items.length :=
    List.length_filter_le _ _
  simp only [if_pos (by omega : (items.filter (fun i => i != "")).length < 2)]

theorem generate_derangement_insufficient_witness :
    (["8494248466"] : List String).length < 2 ∧
      generate_derangement ["8494248466"] [["8494248466"]] =
        .error .insufficientParticipants :=
  ⟨by decide, generate_derangement_insufficient ["8494248466"] [["8494248466"]] (by decide)⟩

/-- Claim C6: `init_db` on an already-populated store performs no re-seed:
the store (in particular every assignment) is returned exactly as it was. -/
theorem init_db_idempotent (db : List Participant) (shuffles : List (List String))
    (h : db ≠ []) : init_db db shuffles = .ok db := by
  unfold init_db
  have : db.length ≠ 0 := by
    intro h0
    exact h (List.length_eq_zero.mp h0)
  simp [this]

theorem init_db_idempotent_witness :
    (([{ phone := "111", name := "A", pin := none, assigned_to_phone := "222",
         assigned_to_name := "B", registered_at := none, revealed_at := none }] :
       List Participant) ≠ []) ∧
    init_db
      [{ phone := "111", name := "A", pin := none, assigned_to_phone := "222",
         assigned_to_name := "B", registered_at := none, revealed_at := none }] [] =
      .ok [{ phone := "111", name := "A", pin := none, assigned_to_phone := "222",
             assigned_to_name := "B", registered_at := none, revealed_at := none }] :=
  ⟨by decide, init_db_idempotent _ [] (by decide)⟩

/-- If every candidate shuffle is a permutation of `items` (which is what
`random.shuffle` guarantees), a successful retry loop returns the
positional pairing with an accepted shuffle: keys are exactly `items`,
values are a permutation of `items`, and no pair is a fixed point. -/
theorem tryShuffles_ok (items : List String) (shuffles : List (List String))
    (m : List (String × String))
    (hperm : ∀ s ∈ shuffles, s.Perm items)
    (h : tryShuffles items shuffles = .ok m) :
    m.map Prod.fst = items ∧ (m.map Prod.snd).Perm items ∧ ∀ p ∈ m, p.1 ≠ p.2 := by
  induction shuffles with
  | nil => simp [tryShuffles] at h
  | cons s rest ih =>
    have hsp : s.Perm items := hperm s (by simp)
    rw [tryShuffles] at h
    by_cases hall : (items.zip s).all (fun p => p.1 != p.2) = true
    · rw [if_pos hall] at h
      injection h with h
      subst h
      refine ⟨List.map_fst_zip items s (le_of_eq hsp.length_eq.symm), ?_, ?_⟩
      · rw [List.map_snd_zip items s (le_of_eq hsp.length_eq)]
        exact hsp
      · intro p hp
        simpa using List.all_eq_true.mp hall p hp
    · rw [if_neg hall] at h
      exact ih (fun t ht => hperm t (List.mem_cons_of_mem s ht)) h

/-- Claim C1: on a list of at least 2 distinct (non-empty) identifiers,
whenever `generate_derangement` returns a mapping, its keys are exactly the
input identifiers, its values are a permutation of them (so key set and
value set both equal the input set and the mapping is a bijection), and no
identifier is mapped to itself.  The `hperm` hypothesis is the contract of
`random.shuffle`: each candidate is a permutation of the shuffled list. -/
theorem generate_derangement_correct (items : List String)
    (shuffles : List (List String)) (m : List (String × String))
    (hlen : 2 ≤ items.length) (hnd : items.Nodup)
    (hne : ∀ i ∈ items, i ≠ "")
    (hperm : ∀ s ∈ shuffles, s.Perm items)
    (hok : generate_derangement items shuffles = .ok m) :
    m.map Prod.fst = items ∧ (m.map Prod.snd).Perm items ∧
      (m.map Prod.snd).Nodup ∧ ∀ p ∈ m, p.1 ≠ p.2 := by
  have hfilter : items.filter (fun i => i != "") = items :=
    List.filter_eq_self.mpr (fun a ha => by simpa using hne a ha)
  unfold generate_derangement at hok
  simp only [hfilter] at hok
  rw [if_neg (by omega)] at hok
  obtain ⟨h1, h2, h3⟩ := tryShuffles_ok items shuffles m hperm hok
  exact ⟨h1, h2, h2.nodup_iff.mpr hnd, h3⟩

theorem generate_derangement_correct_witness :
    generate_derangement ["111", "222"] [["222", "111"]] =
        .ok [("111", "222"), ("222", "111")] ∧
      ([("111", "222"), ("222", "111")].map Prod.fst = ["111", "222"] ∧
        ([("111", "222"), ("222", "111")].map Prod.snd).Perm ["111", "222"] ∧
        ([("111", "222"), ("222", "111")].map Prod.snd).Nodup ∧
        ∀ p ∈ [("111", "222"), ("222", "111")], p.1 ≠ p.2) :=
  ⟨by rfl,
    generate_derangement_correct ["111", "222"] [["222", "111"]]
      [("111", "222"), ("222", "111")]
      (by decide) (by decide) (by decide) (by decide) (by rfl)⟩

/-- A row-wise table update that does not touch the `phone` key commutes
with the `WHERE phone = ?` lookup. -/
theorem find?_map_of_phone_eq (f : Participant → Participant)
    (hf : ∀ r, (f r).phone = r.phone) (phone : String) :
    ∀ db : List Participant,
      (db.map f).find? (fun r => r.phone == phone) =
        (db.find? (fun r => r.phone == phone)).map f
  | [] => rfl
  | r :: t => by
    rw [List.map_cons, List.find?_cons, List.find?_cons]
    have hpred : ((f r).phone == phone) = (r.phone == phone) := by rw [hf r]
    rw [hpred]
    cases hb : (r.phone == phone) with
    | true => rfl
    | false => exact find?_map_of_phone_eq f hf phone t

/-- Under the PRIMARY KEY constraint (pairwise-distinct phones), the row
returned by the `WHERE phone = ?` lookup is the only row whose phone
matches. -/
theorem find?_unique_of_nodup (phone : String) (row : Participant) :
    ∀ db : List Participant,
      (db.map (fun r => r.phone)).Nodup →
      db.find? (fun r => r.phone == phone) = some row →
      ∀ r ∈ db, r.phone = phone → r = row
  | [], _, hfind => by simp [List.find?] at hfind
  | a :: t, hnd, hfind => by
    rw [List.map_cons, List.nodup_cons] at hnd
    rw [List.find?_cons] at hfind
    intro r hr hrphone
    cases ha : (a.phone == phone) with
    | true =>
      simp only [ha] at hfind
      rcases List.mem_cons.mp hr with rfl | hrt
      · simpa using hfind
      · exfalso
        apply hnd.1
        rw [List.mem_map]
        exact ⟨r, hrt, by rw [hrphone, ← eq_of_beq ha]⟩
    | false =>
      simp only [ha] at hfind
      rcases List.mem_cons.mp hr with rfl | hrt
      · rw [hrphone] at ha
        simp at ha
      · exact find?_unique_of_nodup phone row t hnd.2 hfind r hrt hrphone

/-- Claim C4: full case analysis of `validate_phone_pin`.  A phone absent
from the store yields the not-found result `(False, None, None)`;
otherwise a NULL `registered_at` yields `NOT_REGISTERED`; otherwise a NULL
stored pin, or a stored pin different (as an exact string) from the
supplied pin, yields `BAD_PIN`; otherwise the exact match yields `OK`. -/
theorem validate_phone_pin_cases (db : List Participant) (phone pin : String) :
    (db.find? (fun r => r.phone == phone) = none →
      validate_phone_pin db phone pin = (false, none, none)) ∧
    (∀ row, db.find? (fun r => r.phone == phone) = some row →
      (row.registered_at = none →
        validate_phone_pin db phone pin =
          (false, some row.name, some VStatus.NOT_REGISTERED)) ∧
      (row.registered_at ≠ none → row.pin = none →
        validate_phone_pin db phone pin =
          (false, some row.name, some VStatus.BAD_PIN)) ∧
      (∀ p, row.registered_at ≠ none → row.pin = some p → pin ≠ p →
        validate_phone_pin db phone pin =
          (false, some row.name, some VStatus.BAD_PIN)) ∧
      (∀ p, row.registered_at ≠ none → row.pin = some p → pin = p →
        validate_phone_pin db phone pin =
          (true, some row.name, some VStatus.OK))) := by
  constructor
  · intro h
    unfold validate_phone_pin
    rw [h]
  · intro row hrow
    unfold validate_phone_pin
    rw [hrow]
    refine ⟨fun hreg => by simp [hreg], fun hreg hpin => ?_, fun p hreg hpin hne => ?_,
      fun p hreg hpin heq => ?_⟩
    · simp [Option.isNone_iff_eq_none, hreg, hpin]
    · simp [Option.isNone_iff_eq_none, hreg, hpin, hne]
    · simp [Option.isNone_iff_eq_none, hreg, hpin, heq]

theorem validate_phone_pin_cases_witness :
    (([] : List Participant).find? (fun r => r.phone == "8494248466") = none) ∧
      validate_phone_pin [] "8494248466" "123456" = (false, none, none) :=
  ⟨by rfl, (validate_phone_pin_cases [] "8494248466" "123456").1 (by rfl)⟩

/-- Function `validate_phone_pin` reports success in its boolean component only in
the `OK` branch. -/
theorem validate_true_implies_ok (db : List Participant) (phone pin : String)
    (h : (validate_phone_pin db phone pin).1 = true) :
    (validate_phone_pin db phone pin).2.2 = some VStatus.OK := by
  cases hfind : db.find? (fun r => r.phone == phone) with
  | none => simp [validate_phone_pin, hfind] at h
  | some row =>
    by_cases h1 : row.registered_at.isNone
    · simp [validate_phone_pin, hfind, h1] at h
    · cases hp : row.pin with
      | none => simp [validate_phone_pin, hfind, h1, hp] at h
      | some p =>
        by_cases h2 : pin = p
        · simp [validate_phone_pin, hfind, h1, hp, h2]
        · simp [validate_phone_pin, hfind, h1, hp, h2] at h

/-- Claim C2: the reveal button handler runs credential validation first and
calls `reveal_assignment` only when it returns `OK`: on any input whose
(normalised) credentials do not validate to `OK`, the success branch is
never reached (the assigned recipient is not disclosed) and the store is
left untouched. -/
theorem reveal_requires_ok (db : List Participant) (phone_input pin_input now : String)
    (h : (validate_phone_pin db (clean_phone phone_input) (clean_pin pin_input)).2.2 ≠
      some VStatus.OK) :
    ((reveal_button_handler db phone_input pin_input now).1).isRevealed = false ∧
      (reveal_button_handler db phone_input pin_input now).2 = db := by
  simp only [reveal_button_handler]
  by_cases hmem : clean_phone phone_input ∈ valid_phones_set
  · rw [if_neg (not_not_intro hmem)]
    by_cases h1 : (validate_phone_pin db (clean_phone phone_input) (clean_pin pin_input)).2.2 =
        some VStatus.NOT_REGISTERED
    · rw [if_pos h1]
      exact ⟨rfl, rfl⟩
    · rw [if_neg h1]
      by_cases h2 : (validate_phone_pin db (clean_phone phone_input) (clean_pin pin_input)).2.2 =
          some VStatus.BAD_PIN
      · rw [if_pos h2]
        exact ⟨rfl, rfl⟩
      · rw [if_neg h2]
        have hfalse : (validate_phone_pin db (clean_phone phone_input) (clean_pin pin_input)).1 =
            false := by
          cases hb : (validate_phone_pin db (clean_phone phone_input) (clean_pin pin_input)).1 with
          | false => rfl
          | true => exact absurd (validate_true_implies_ok db _ _ hb) h
        rw [if_pos hfalse]
        exact ⟨rfl, rfl⟩
  · rw [if_pos hmem]
    exact ⟨rfl, rfl⟩

theorem reveal_requires_ok_witness :
    ((validate_phone_pin [] (clean_phone ("809-123")) (clean_pin ("12ab"))).2.2 ≠
        some VStatus.OK) ∧
      ((reveal_button_handler [] "809-123" "12ab" "2026-01-01").1).isRevealed = false ∧
      (reveal_button_handler [] "809-123" "12ab" "2026-01-01").2 = [] :=
  ⟨by decide, reveal_requires_ok [] "809-123" "12ab" "2026-01-01" (by decide)⟩

/-- Claim C5: for a phone present in the store and not yet revealed, the
first `reveal_assignment` returns the pre-assigned recipient name with the
fresh (non-null) timestamp and stores that timestamp; every subsequent
call, at any later time, returns the identical name and timestamp and
leaves the store byte-for-byte unchanged. -/
theorem reveal_assignment_idempotent (db : List Participant) (phone now : String)
    (row : Participant)
    (hfind : db.find? (fun r => r.phone == phone) = some row)
    (hrev : row.revealed_at = none) :
    (reveal_assignment db phone now).1 = (some row.assigned_to_name, some now) ∧
      ((reveal_assignment db phone now).2).find? (fun r => r.phone == phone) =
        some { row with revealed_at := some now } ∧
      ∀ now2, reveal_assignment ((reveal_assignment db phone now).2) phone now2 =
        ((some row.assigned_to_name, some now), (reveal_assignment db phone now).2) := by
  have hcond : (row.phone == phone) = true := by
    have h := List.find?_some hfind
    simpa using h
  have hphone : ∀ r : Participant,
      ((if r.phone == phone && r.revealed_at.isNone then
          { r with revealed_at := some now } else r) : Participant).phone = r.phone := by
    intro r
    by_cases hc : (r.phone == phone && r.revealed_at.isNone) = true <;> simp [hc]
  have hmap : (reveal_assignment db phone now).2 = db.map (fun r =>
      if r.phone == phone && r.revealed_at.isNone then
        { r with revealed_at := some now } else r) := by
    simp only [reveal_assignment, hfind, hrev]
  have hfind2 : ((reveal_assignment db phone now).2).find? (fun r => r.phone == phone) =
      some { row with revealed_at := some now } := by
    rw [hmap, find?_map_of_phone_eq _ hphone _ db, hfind, Option.map_some']
    rw [if_pos (by rw [hcond, hrev]; rfl)]
  refine ⟨by simp only [reveal_assignment, hfind, hrev], hfind2, fun now2 => ?_⟩
  set db1 := (reveal_assignment db phone now).2 with hdb1
  simp only [reveal_assignment, hfind2]

theorem reveal_assignment_idempotent_witness :
    (([{ phone := "111", name := "A", pin := some ("123456"),
         assigned_to_phone := "222", assigned_to_name := "B",
         registered_at := some ("t0"), revealed_at := none }] : List Participant).find?
        (fun r => r.phone == "111") =
      some { phone := "111", name := "A", pin := some ("123456"),
             assigned_to_phone := "222", assigned_to_name := "B",
             registered_at := some ("t0"), revealed_at := none }) ∧
    ((reveal_assignment
        [{ phone := "111", name := "A", pin := some ("123456"),
           assigned_to_phone := "222", assigned_to_name := "B",
           registered_at := some ("t0"), revealed_at := none }] "111" "t1").1 =
      (some ("B"), some ("t1")) ∧
    ((reveal_assignment
        [{ phone := "111", name := "A", pin := some ("123456"),
           assigned_to_phone := "222", assigned_to_name := "B",
           registered_at := some ("t0"), revealed_at := none }] "111" "t1").2).find?
        (fun r => r.phone == "111") =
      some { phone := "111", name := "A", pin := some ("123456"),
             assigned_to_phone := "222", assigned_to_name := "B",
             registered_at := some ("t0"), revealed_at := some ("t1") } ∧
    ∀ now2, reveal_assignment
        ((reveal_assignment
          [{ phone := "111", name := "A", pin := some ("123456"),
             assigned_to_phone := "222", assigned_to_name := "B",
             registered_at := some ("t0"), revealed_at := none }] "111" "t1").2) "111" now2 =
      ((some ("B"), some ("t1")),
        (reveal_assignment
          [{ phone := "111", name := "A", pin := some ("123456"),
             assigned_to_phone := "222", assigned_to_name := "B",
             registered_at := some ("t0"), revealed_at := none }] "111" "t1").2)) :=
  ⟨by decide,
    reveal_assignment_idempotent
      [{ phone := "111", name := "A", pin := some ("123456"),
         assigned_to_phone := "222", assigned_to_name := "B",
         registered_at := some ("t0"), revealed_at := none }] "111" "t1"
      { phone := "111", name := "A", pin := some ("123456"),
        assigned_to_phone := "222", assigned_to_name := "B",
        registered_at := some ("t0"), revealed_at := none }
      (by decide) (by decide)⟩

/-- Claim C3: for a phone present in the store and not yet registered
(`registered_at` NULL), the first `register_phone` returns `wasNew = true`
with the participant name and a non-null PIN (the stored one, or the
freshly generated one when none was stored); every subsequent call — with
any later timestamp and any other freshly generated PIN — returns
`wasNew = false` with the same name and the same PIN, and leaves the
store unchanged.  `hnd` is the PRIMARY KEY constraint on `phone`. -/
theorem register_phone_first_then_repeat (db : List Participant)
    (phone now1 fresh1 : String) (row : Participant)
    (hnd : (db.map (fun r => r.phone)).Nodup)
    (hfind : db.find? (fun r => r.phone == phone) = some row)
    (hreg : row.registered_at = none) :
    (register_phone db phone now1 fresh1).1 =
        (some row.name, some (row.pin.getD fresh1), true) ∧
      ∀ now2 fresh2,
        register_phone ((register_phone db phone now1 fresh1).2) phone now2 fresh2 =
          ((some row.name, some (row.pin.getD fresh1), false),
            (register_phone db phone now1 fresh1).2) := by
  have hcond : (row.phone == phone) = true := by
    have h := List.find?_some hfind
    simpa using h
  have hphone : ∀ r : Participant,
      ((if r.phone == phone then
          { r with registered_at := some (r.registered_at.getD now1),
                   pin := some (r.pin.getD (row.pin.getD fresh1)) }
        else r) : Participant).phone = r.phone := by
    intro r
    by_cases hc : (r.phone == phone) = true <;> simp [hc]
  have hfrow : ((if row.phone == phone then
      { row with registered_at := some (row.registered_at.getD now1),
                 pin := some (row.pin.getD (row.pin.getD fresh1)) }
      else row) : Participant) =
      { row with registered_at := some now1, pin := some (row.pin.getD fresh1) } := by
    rw [if_pos hcond, hreg]
    cases hp : row.pin with
    | none => simp [hp]
    | some p => simp [hp]
  have hmap : (register_phone db phone now1 fresh1).2 = db.map (fun r =>
      if r.phone == phone then
        { r with registered_at := some (r.registered_at.getD now1),
                 pin := some (r.pin.getD (row.pin.getD fresh1)) }
      else r) := by
    simp only [register_phone, hfind]
  have hfind1 : ((register_phone db phone now1 fresh1).2).find? (fun r => r.phone == phone) =
      some { row with registered_at := some now1, pin := some (row.pin.getD fresh1) } := by
    rw [hmap, find?_map_of_phone_eq _ hphone _ db, hfind, Option.map_some', hfrow]
  refine ⟨by simp [register_phone, hfind, hreg], fun now2 fresh2 => ?_⟩
  have hid : ∀ r ∈ (register_phone db phone now1 fresh1).2,
      ((if r.phone == phone then
          { r with registered_at := some (r.registered_at.getD now2),
                   pin := some (r.pin.getD (row.pin.getD fresh1)) }
        else r) : Participant) = r := by
    intro r hr
    rw [hmap] at hr
    rcases List.mem_map.mp hr with ⟨r0, hr0, rfl⟩
    by_cases hc : (r0.phone == phone) = true
    · have hr0row : r0 = row := find?_unique_of_nodup phone row db hnd hfind r0 hr0 (eq_of_beq hc)
      subst hr0row
      rw [hfrow, if_pos (by simpa using hcond)]
      simp
    · simp [hc]
  have hmapid : ((register_phone db phone now1 fresh1).2).map (fun r =>
      if r.phone == phone then
        { r with registered_at := some (r.registered_at.getD now2),
                 pin := some (r.pin.getD (row.pin.getD fresh1)) }
      else r) = (register_phone db phone now1 fresh1).2 :=
    (List.map_congr_left hid).trans (List.map_id' _)
  set db1 := (register_phone db phone now1 fresh1).2 with hdb1
  simp only [register_phone, hfind1, Option.getD_some, Option.isNone_some]
  rw [hmapid]

theorem register_phone_first_then_repeat_witness :
    (([{ phone := "111", name := "A", pin := none, assigned_to_phone := "222",
         assigned_to_name := "B", registered_at := none, revealed_at := none }] :
        List Participant).map (fun r => r.phone)).Nodup ∧
    (([{ phone := "111", name := "A", pin := none, assigned_to_phone := "222",
         assigned_to_name := "B", registered_at := none, revealed_at := none }] :
        List Participant).find? (fun r => r.phone == "111") =
      some { phone := "111", name := "A", pin := none, assigned_to_phone := "222",
             assigned_to_name := "B", registered_at := none, revealed_at := none }) ∧
    (register_phone
        [{ phone := "111", name := "A", pin := none, assigned_to_phone := "222",
           assigned_to_name := "B", registered_at := none, revealed_at := none }]
        "111" "t1" "654321").1 = (some ("A"), some ("654321"), true) ∧
    register_phone
        ((register_phone
          [{ phone := "111", name := "A", pin := none, assigned_to_phone := "222",
             assigned_to_name := "B", registered_at := none, revealed_at := none }]
          "111" "t1" "654321").2) "111" "t2" "999999" =
      ((some ("A"), some ("654321"), false),
        (register_phone
          [{ phone := "111", name := "A", pin := none, assigned_to_phone := "222",
             assigned_to_name := "B", registered_at := none, revealed_at := none }]
          "111" "t1" "654321").2) :=
  ⟨by decide, by decide,
    (register_phone_first_then_repeat
      [{ phone := "111", name := "A", pin := none, assigned_to_phone := "222",
         assigned_to_name := "B", registered_at := none, revealed_at := none }]
      "111" "t1" "654321"
      { phone := "111", name := "A", pin := none, assigned_to_phone := "222",
        assigned_to_name := "B", registered_at := none, revealed_at := none }
      (by decide) (by decide) (by rfl)).1,
    (register_phone_first_then_repeat
      [{ phone := "111", name := "A", pin := none, assigned_to_phone := "222",
         assigned_to_name := "B", registered_at := none, revealed_at := none }]
      "111" "t1" "654321"
      { phone := "111", name := "A", pin := none, assigned_to_phone := "222",
        assigned_to_name := "B", registered_at := none, revealed_at := none }
      (by decide) (by decide) (by rfl)).2 "t2" "999999"⟩

/-- Claim C9: for a phone present in the store with `registered_at` NULL
but a PIN already stored (e.g. after an admin `reset_pin` on an
unregistered participant), `register_phone` returns `wasNew = true`
together with the pre-existing stored PIN — not the freshly generated
`fresh`, which is discarded — and the stored record keeps that PIN,
gaining only the registration timestamp. -/
theorem register_phone_preexisting_pin (db : List Participant)
    (phone now fresh p0 : String) (row : Participant)
    (hfind : db.find? (fun r => r.phone == phone) = some row)
    (hreg : row.registered_at = none) (hpin : row.pin = some p0) :
    (register_phone db phone now fresh).1 = (some row.name, some p0, true) ∧
      ((register_phone db phone now fresh).2).find? (fun r => r.phone == phone) =
        some { row with registered_at := some now } := by
  have hcond : (row.phone == phone) = true := by
    have h := List.find?_some hfind
    simpa using h
  have hphone : ∀ r : Participant,
      ((if r.phone == phone then
          { r with registered_at := some (r.registered_at.getD now),
                   pin := some (r.pin.getD (row.pin.getD fresh)) }
        else r) : Participant).phone = r.phone := by
    intro r
    by_cases hc : (r.phone == phone) = true <;> simp [hc]
  constructor
  · simp [register_phone, hfind, hreg, hpin]
  · have hmap : (register_phone db phone now fresh).2 = db.map (fun r =>
        if r.phone == phone then
          { r with registered_at := some (r.registered_at.getD now),
                   pin := some (r.pin.getD (row.pin.getD fresh)) }
        else r) := by
      simp only [register_phone, hfind]
    rw [hmap, find?_map_of_phone_eq _ hphone _ db, hfind, Option.map_some']
    rw [if_pos (by simpa using hcond)]
    simp [hreg, hpin]

theorem register_phone_preexisting_pin_witness :
    (([{ phone := "111", name := "A", pin := some ("222222"), assigned_to_phone := "222",
         assigned_to_name := "B", registered_at := none, revealed_at := none }] :
        List Participant).find? (fun r => r.phone == "111") =
      some { phone := "111", name := "A", pin := some ("222222"), assigned_to_phone := "222",
             assigned_to_name := "B", registered_at := none, revealed_at := none }) ∧
    (register_phone
        [{ phone := "111", name := "A", pin := some ("222222"), assigned_to_phone := "222",
           assigned_to_name := "B", registered_at := none, revealed_at := none }]
        "111" "t1" "999999").1 = (some ("A"), some ("222222"), true) ∧
    ((register_phone
        [{ phone := "111", name := "A", pin := some ("222222"), assigned_to_phone := "222",
           assigned_to_name := "B", registered_at := none, revealed_at := none }]
        "111" "t1" "999999").2).find? (fun r => r.phone == "111") =
      some { phone := "111", name := "A", pin := some ("222222"), assigned_to_phone := "222",
             assigned_to_name := "B", registered_at := some ("t1"), revealed_at := none } :=
  ⟨by decide,
    (register_phone_preexisting_pin
      [{ phone := "111", name := "A", pin := some ("222222"), assigned_to_phone := "222",
         assigned_to_name := "B", registered_at := none, revealed_at := none }]
      "111" "t1" "999999" "222222"
      { phone := "111", name := "A", pin := some ("222222"), assigned_to_phone := "222",
        assigned_to_name := "B", registered_at := none, revealed_at := none }
      (by decide) (by rfl) (by rfl)).1,
    (register_phone_preexisting_pin
      [{ phone := "111", name := "A", pin := some ("222222"), assigned_to_phone := "222",
         assigned_to_name := "B", registered_at := none, revealed_at := none }]
      "111" "t1" "999999" "222222"
      { phone := "111", name := "A", pin := some ("222222"), assigned_to_phone := "222",
        assigned_to_name := "B", registered_at := none, revealed_at := none }
      (by decide) (by rfl) (by rfl)).2⟩

/-- The character of a single decimal digit is a digit character. -/
theorem digitChar_isDigit (d : Nat) (hd : d < 10) :
    (Char.ofNat (48 + d)).isDigit = true := by
  interval_cases d <;> decide

/-- Every character produced by `natDigitsRev` is a decimal digit. -/
theorem natDigitsRev_digits (n : Nat) : ∀ c ∈ natDigitsRev n, c.isDigit = true := by
  induction n using Nat.strong_induction_on with
  | _ n ih =>
    rw [natDigitsRev]
    by_cases h : n < 10
    · rw [dif_pos h]
      intro c hc
      rw [List.mem_singleton] at hc
      subst hc
      exact digitChar_isDigit n h
    · rw [dif_neg h]
      intro c hc
      rcases List.mem_cons.mp hc with rfl | hc2
      · exact digitChar_isDigit (n % 10) (Nat.mod_lt _ (by omega))
      · exact ih (n / 10) (Nat.div_lt_self (by omega) (by omega)) c hc2

/-- List `natDigitsRev n` has at most `k` digits when `n < 10 ^ k` (for `k ≥ 1`). -/
theorem natDigitsRev_length_le : ∀ (k n : Nat), 1 ≤ k → n < 10 ^ k →
    (natDigitsRev n).length ≤ k := by
  intro k
  induction k with
  | zero => intro n h1 _; omega
  | succ k ih =>
    intro n _ hn
    rw [natDigitsRev]
    by_cases h : n < 10
    · rw [dif_pos h]
      simp
    · rw [dif_neg h]
      rcases Nat.eq_zero_or_pos k with rfl | hk1
      · exfalso
        apply h
        simpa using hn
      · have hdiv : n / 10 < 10 ^ k := by
          apply Nat.div_lt_of_lt_mul
          rw [Nat.mul_comm, ← pow_succ]
          exact hn
        have hlen := ih (n / 10) hk1 hdiv
        simp only [List.length_cons]
        omega

/-- For any RNG draw in the range of `random.randint(0, 999999)`, the
generated PIN is a 6-character string. -/
theorem gen_pin_6_length (n : Nat) (hn : n ≤ 999999) : (gen_pin_6 n).length = 6 := by
  have hlen : (natDigitsRev n).length ≤ 6 :=
    natDigitsRev_length_le 6 n (by omega) (by omega)
  show (List.replicate (6 - (natDigitsRev n).reverse.length) '0' ++
      (natDigitsRev n).reverse).length = 6
  rw [List.length_append, List.length_replicate, List.length_reverse]
  omega

/-- Every character of a generated PIN is a decimal digit. -/
theorem gen_pin_6_digits (n : Nat) : ∀ c ∈ (gen_pin_6 n).toList, c.isDigit = true := by
  intro c hc
  replace hc : c ∈ List.replicate (6 - (natDigitsRev n).reverse.length) '0' ++
      (natDigitsRev n).reverse := hc
  rcases List.mem_append.mp hc with h | h
  · rw [List.eq_of_mem_replicate h]
    decide
  · exact natDigitsRev_digits n c (List.mem_reverse.mp h)

/-- Claim C7: for a phone present in the store, `reset_pin` returns the
freshly generated PIN and overwrites the stored PIN with it regardless of
the record's registration or reveal state, while every other field of
every row (and the number of rows) is left unchanged. -/
theorem reset_pin_overwrites (db : List Participant) (phone : String) (n : Nat)
    (row : Participant)
    (hfind : db.find? (fun r => r.phone == phone) = some row) :
    (reset_pin db phone n).1 = gen_pin_6 n ∧
      ((reset_pin db phone n).2).find? (fun r => r.phone == phone) =
        some { row with pin := some (gen_pin_6 n) } ∧
      ((reset_pin db phone n).2).length = db.length ∧
      ∀ i (h1 : i < db.length) (h2 : i < ((reset_pin db phone n).2).length),
        (((reset_pin db phone n).2).get ⟨i, h2⟩).phone = (db.get ⟨i, h1⟩).phone ∧
        (((reset_pin db phone n).2).get ⟨i, h2⟩).name = (db.get ⟨i, h1⟩).name ∧
        (((reset_pin db phone n).2).get ⟨i, h2⟩).assigned_to_phone =
          (db.get ⟨i, h1⟩).assigned_to_phone ∧
        (((reset_pin db phone n).2).get ⟨i, h2⟩).assigned_to_name =
          (db.get ⟨i, h1⟩).assigned_to_name ∧
        (((reset_pin db phone n).2).get ⟨i, h2⟩).registered_at =
          (db.get ⟨i, h1⟩).registered_at ∧
        (((reset_pin db phone n).2).get ⟨i, h2⟩).revealed_at =
          (db.get ⟨i, h1⟩).revealed_at ∧
        (((reset_pin db phone n).2).get ⟨i, h2⟩).pin =
          (if (db.get ⟨i, h1⟩).phone = phone then some (gen_pin_6 n)
           else (db.get ⟨i, h1⟩).pin) := by
  have hcond : (row.phone == phone) = true := by
    have h := List.find?_some hfind
    simpa using h
  have hphone : ∀ r : Participant,
      ((if r.phone == phone then { r with pin := some (gen_pin_6 n) } else r) :
        Participant).phone = r.phone := by
    intro r
    by_cases hc : (r.phone == phone) = true <;> simp [hc]
  have hmap : (reset_pin db phone n).2 = db.map (fun r =>
      if r.phone == phone then { r with pin := some (gen_pin_6 n) } else r) := rfl
  refine ⟨rfl, ?_, ?_, ?_⟩
  · rw [hmap, find?_map_of_phone_eq _ hphone _ db, hfind, Option.map_some',
      if_pos (by simpa using hcond)]
  · rw [hmap, List.length_map]
  · intro i h1 h2
    have hget : ((reset_pin db phone n).2).get ⟨i, h2⟩ =
        (if (db.get ⟨i, h1⟩).phone == phone then
          { db.get ⟨i, h1⟩ with pin := some (gen_pin_6 n) }
        else db.get ⟨i, h1⟩) := List.get_map _
    rw [hget]
    by_cases hc : ((db.get ⟨i, h1⟩).phone == phone) = true
    · have heq : (db.get ⟨i, h1⟩).phone = phone := eq_of_beq hc
      simp only [List.get_eq_getElem] at heq ⊢
      simp [hc, heq]
    · have hne : ¬(db.get ⟨i, h1⟩).phone = phone := by simpa using hc
      simp only [List.get_eq_getElem] at hne ⊢
      simp [hc, hne]

theorem reset_pin_overwrites_witness :
    (([{ phone := "111", name := "A", pin := some ("123456"), assigned_to_phone := "222",
         assigned_to_name := "B", registered_at := some ("t0"), revealed_at := some ("t1") }] :
        List Participant).find? (fun r => r.phone == "111") =
      some { phone := "111", name := "A", pin := some ("123456"), assigned_to_phone := "222",
             assigned_to_name := "B", registered_at := some ("t0"),
             revealed_at := some ("t1") }) ∧
    (reset_pin
        [{ phone := "111", name := "A", pin := some ("123456"), assigned_to_phone := "222",
           assigned_to_name := "B", registered_at := some ("t0"), revealed_at := some ("t1") }]
        "111" 7).1 = gen_pin_6 7 ∧
    ((reset_pin
        [{ phone := "111", name := "A", pin := some ("123456"), assigned_to_phone := "222",
           assigned_to_name := "B", registered_at := some ("t0"), revealed_at := some ("t1") }]
        "111" 7).2).find? (fun r => r.phone == "111") =
      some { phone := "111", name := "A", pin := some (gen_pin_6 7),
             assigned_to_phone := "222", assigned_to_name := "B",
             registered_at := some ("t0"), revealed_at := some ("t1") } ∧
    ((reset_pin
        [{ phone := "111", name := "A", pin := some ("123456"), assigned_to_phone := "222",
           assigned_to_name := "B", registered_at := some ("t0"), revealed_at := some ("t1") }]
        "111" 7).2).length = 1 :=
  ⟨by decide,
    (reset_pin_overwrites
      [{ phone := "111", name := "A", pin := some ("123456"), assigned_to_phone := "222",
         assigned_to_name := "B", registered_at := some ("t0"), revealed_at := some ("t1") }]
      "111" 7
      { phone := "111", name := "A", pin := some ("123456"), assigned_to_phone := "222",
        assigned_to_name := "B", registered_at := some ("t0"), revealed_at := some ("t1") }
      (by decide)).1,
    (reset_pin_overwrites
      [{ phone := "111", name := "A", pin := some ("123456"), assigned_to_phone := "222",
         assigned_to_name := "B", registered_at := some ("t0"), revealed_at := some ("t1") }]
      "111" 7
      { phone := "111", name := "A", pin := some ("123456"), assigned_to_phone := "222",
        assigned_to_name := "B", registered_at := some ("t0"), revealed_at := some ("t1") }
      (by decide)).2.1,
    (reset_pin_overwrites
      [{ phone := "111", name := "A", pin := some ("123456"), assigned_to_phone := "222",
         assigned_to_name := "B", registered_at := some ("t0"), revealed_at := some ("t1") }]
      "111" 7
      { phone := "111", name := "A", pin := some ("123456"), assigned_to_phone := "222",
        assigned_to_name := "B", registered_at := some ("t0"), revealed_at := some ("t1") }
      (by decide)).2.2.1⟩

/-- Claim C10: for a phone absent from the store, `reset_pin` still returns
a freshly generated six-digit PIN string and signals no error, while the
conditional `UPDATE` matches zero rows, so the store is completely
unchanged and the returned PIN is stored nowhere. -/
theorem reset_pin_absent (db : List Participant) (phone : String) (n : Nat)
    (habs : ∀ r ∈ db, r.phone ≠ phone) (hn : n ≤ 999999) :
    reset_pin db phone n = (gen_pin_6 n, db) ∧
      (gen_pin_6 n).length = 6 ∧
      ∀ c ∈ (gen_pin_6 n).toList, c.isDigit = true := by
  refine ⟨?_, gen_pin_6_length n hn, gen_pin_6_digits n⟩
  show (gen_pin_6 n, db.map (fun r =>
      if r.phone == phone then { r with pin := some (gen_pin_6 n) } else r)) =
    (gen_pin_6 n, db)
  have hid : ∀ r ∈ db,
      ((if r.phone == phone then { r with pin := some (gen_pin_6 n) } else r) :
        Participant) = r := by
    intro r hr
    rw [if_neg (by simpa using habs r hr)]
  rw [(List.map_congr_left hid).trans (List.map_id' _)]

theorem reset_pin_absent_witness :
    (∀ r ∈ ([{ phone := "111", name := "A", pin := some ("123456"),
               assigned_to_phone := "222", assigned_to_name := "B",
               registered_at := none, revealed_at := none }] : List Participant),
      r.phone ≠ "333") ∧
    reset_pin
        [{ phone := "111", name := "A", pin := some ("123456"), assigned_to_phone := "222",
           assigned_to_name := "B", registered_at := none, revealed_at := none }]
        "333" 7 =
      (gen_pin_6 7,
        [{ phone := "111", name := "A", pin := some ("123456"), assigned_to_phone := "222",
           assigned_to_name := "B", registered_at := none, revealed_at := none }]) ∧
    (gen_pin_6 7).length = 6 :=
  ⟨by decide,
    (reset_pin_absent
      [{ phone := "111", name := "A", pin := some ("123456"), assigned_to_phone := "222",
         assigned_to_name := "B", registered_at := none, revealed_at := none }]
      "333" 7 (by decide) (by decide)).1,
    (reset_pin_absent
      [{ phone := "111", name := "A", pin := some ("123456"), assigned_to_phone := "222",
         assigned_to_name := "B", registered_at := none, revealed_at := none }]
      "333" 7 (by decide) (by decide)).2.1⟩
